import Mathlib

/-!
Shallow embedding of `ext/libvirt/secret.c` from ruby-libvirt: the
`Libvirt::Secret` binding methods, together with the daemon-side secret
object and the common binding helpers they call. The binding methods are
translated from `secret.c`; the daemon behaviour and the `common.h` /
`common.c` helpers, whose code is not part of this file, are modelled from
the specification and marked as such in their doc comments.
-/

/-- A byte sequence; embedded zero bytes are ordinary elements. -/
abbrev Bytes := List Nat

/-- A libvirt error detail (code and message) as recorded on a connection. -/
structure VirError where
  code : Nat
  message : String
deriving DecidableEq

/-- Modelled from the spec: a Connection is the open session to the
management daemon; it records the last error detail the daemon reported on
this session. -/
structure Connection where
  id : Nat
  lastError : VirError
deriving DecidableEq

/-- Modelled from the spec: the daemon-side secret object; the daemon is the
sole owner of the stored value and metadata. `defined = false` once the
secret has been undefined; `value = none` when the value was never set. -/
structure SecretObj where
  uuid : String
  usageType : Int
  usageID : String
  xmlDesc : String
  defined : Bool
  value : Option Bytes
deriving DecidableEq

/-- The client-side world one handle sees: the daemon secret it references,
the wrapped native pointer (`handlePtr = false` once the handle has been
freed) and the owning connection. -/
structure World where
  secret : SecretObj
  handlePtr : Bool
  conn : Connection
deriving DecidableEq

/-- Errors surfaced to the Ruby caller. `remote` carries the daemon error
context (operation, code, message) and the owning connection id; the other
constructors are local Ruby-level errors carrying no daemon context. -/
inductive CallErr
  | remote (operation : String) (code : Nat) (message : String) (connId : Nat)
  | localTypeError (message : String)
  | localArgError (message : String)
  | rubyJump (tag : Nat)
deriving DecidableEq

/-- Observable actions of one binding call, used to state dispatch-order and
buffer-lifetime properties: a daemon call, the transmission of a payload
with an explicit byte length, the construction of the caller string from a
native buffer, the release of that buffer, and a re-raised exception. -/
inductive Event
  | daemonCall (op : String)
  | sendBytes (buf : Bytes) (len : Nat)
  | strNew (size : Nat)
  | freeBuf
  | jumpTag
deriving DecidableEq

/-- Result, post-state and event trace of one binding call. -/
structure Step (α : Type) where
  result : Except CallErr α
  world : World
  events : List Event

/-- Modelled from the spec: `virSecretGetValue`. Yields the stored value, or
a null result (recording the error detail on the connection) when the secret
is undefined or its value was never set; a zero-length stored value is a
non-null success. Flags are daemon-opaque. -/
def virSecretGetValueD (sec : SecretObj) (conn : Connection) (_flags : Nat) :
    Option Bytes × Connection :=
  if sec.defined then
    match sec.value with
    | some v => (some v, conn)
    | none => (none, { conn with lastError := ⟨66, "secret value is not set"⟩ })
  else
    (none, { conn with lastError := ⟨66, "secret is not defined"⟩ })

/-- Modelled from the spec: `virSecretGetUUIDString` against a daemon-side
secret; fails once the secret is undefined. -/
def virSecretGetUUIDStringD (sec : SecretObj) (conn : Connection) :
    Option String × Connection :=
  if sec.defined then (some sec.uuid, conn)
  else (none, { conn with lastError := ⟨66, "secret is not defined"⟩ })

/-- Modelled from the spec: `virSecretGetUsageType`; fails once the secret
is undefined. -/
def virSecretGetUsageTypeD (sec : SecretObj) (conn : Connection) :
    Option Int × Connection :=
  if sec.defined then (some sec.usageType, conn)
  else (none, { conn with lastError := ⟨66, "secret is not defined"⟩ })

/-- Modelled from the spec: `virSecretGetUsageID`; fails once the secret is
undefined. -/
def virSecretGetUsageIDD (sec : SecretObj) (conn : Connection) :
    Option String × Connection :=
  if sec.defined then (some sec.usageID, conn)
  else (none, { conn with lastError := ⟨66, "secret is not defined"⟩ })

/-- Modelled from the spec: `virSecretGetXMLDesc`; fails once the secret is
undefined. Flags are daemon-opaque. -/
def virSecretGetXMLDescD (sec : SecretObj) (conn : Connection) (_flags : Nat) :
    Option String × Connection :=
  if sec.defined then (some sec.xmlDesc, conn)
  else (none, { conn with lastError := ⟨66, "secret is not defined"⟩ })

/-- Modelled from the spec: `virSecretSetValue` receives the payload as a
buffer plus an explicit byte count (not a NUL-terminated string) and stores
exactly the first `len` bytes; fails once the secret is undefined. -/
def virSecretSetValueD (sec : SecretObj) (buf : Bytes) (len : Nat)
    (conn : Connection) (_flags : Nat) : Option SecretObj × Connection :=
  if sec.defined then
    (some { sec with value := some (buf.take len) }, conn)
  else
    (none, { conn with lastError := ⟨66, "secret is not defined"⟩ })

/-- Modelled from the spec: `virSecretUndefine` removes the secret from the
daemon store permanently; fails when it is already undefined. -/
def virSecretUndefineD (sec : SecretObj) (conn : Connection) :
    Option SecretObj × Connection :=
  if sec.defined then (some { sec with defined := false }, conn)
  else (none, { conn with lastError := ⟨66, "secret is not defined"⟩ })

/-- Modelled from the spec: `common.c` `ruby_libvirt_create_error` builds the
raised RemoteError from the last error detail of the owning connection. -/
def ruby_libvirt_create_error (op : String) (conn : Connection) : CallErr :=
  .remote op conn.lastError.code conn.lastError.message conn.id

/-- Modelled from the spec: `secret_get` via the `common.h`
`ruby_libvirt_get_struct` macro — yields the wrapped native pointer, or
nothing once the handle has been freed (the binding then raises a local
ArgumentError, without contacting the daemon). -/
def secret_get (w : World) : Option Unit :=
  if w.handlePtr then some () else none

/-- Modelled from the spec: `common.c` `ruby_libvirt_str_new_wrap` builds the
caller-visible byte string from a native buffer with an explicit byte count
(`rb_str_new`), never stopping at an embedded zero byte. -/
def ruby_libvirt_str_new_wrap (buf : Bytes) (size : Nat) : Bytes :=
  buf.take size

/-- Embeds `libvirt_secret_get_uuid_string` (secret.c lines 54-58). -/
def libvirt_secret_get_uuid_string (w : World) : Step String :=
  match secret_get w with
  | none => ⟨.error (.localArgError "Secret has been freed"), w, []⟩
  | some _ =>
    match virSecretGetUUIDStringD w.secret w.conn with
    | (none, c2) =>
      ⟨.error (ruby_libvirt_create_error "virSecretGetUUIDString" c2),
       { w with conn := c2 }, [.daemonCall "virSecretGetUUIDString"]⟩
    | (some u, c2) =>
      ⟨.ok u, { w with conn := c2 }, [.daemonCall "virSecretGetUUIDString"]⟩

/-- Embeds `libvirt_secret_get_usage_type` (secret.c lines 67-72). -/
def libvirt_secret_get_usage_type (w : World) : Step Int :=
  match secret_get w with
  | none => ⟨.error (.localArgError "Secret has been freed"), w, []⟩
  | some _ =>
    match virSecretGetUsageTypeD w.secret w.conn with
    | (none, c2) =>
      ⟨.error (ruby_libvirt_create_error "virSecretGetUsageType" c2),
       { w with conn := c2 }, [.daemonCall "virSecretGetUsageType"]⟩
    | (some t, c2) =>
      ⟨.ok t, { w with conn := c2 }, [.daemonCall "virSecretGetUsageType"]⟩

/-- Embeds `libvirt_secret_get_usage_id` (secret.c lines 81-86). -/
def libvirt_secret_get_usage_id (w : World) : Step String :=
  match secret_get w with
  | none => ⟨.error (.localArgError "Secret has been freed"), w, []⟩
  | some _ =>
    match virSecretGetUsageIDD w.secret w.conn with
    | (none, c2) =>
      ⟨.error (ruby_libvirt_create_error "virSecretGetUsageID" c2),
       { w with conn := c2 }, [.daemonCall "virSecretGetUsageID"]⟩
    | (some i, c2) =>
      ⟨.ok i, { w with conn := c2 }, [.daemonCall "virSecretGetUsageID"]⟩

/-- Embeds `libvirt_secret_get_xml_desc` (secret.c lines 95-105). -/
def libvirt_secret_get_xml_desc (w : World) (flags : Nat) : Step String :=
  match secret_get w with
  | none => ⟨.error (.localArgError "Secret has been freed"), w, []⟩
  | some _ =>
    match virSecretGetXMLDescD w.secret w.conn flags with
    | (none, c2) =>
      ⟨.error (ruby_libvirt_create_error "virSecretGetXMLDesc" c2),
       { w with conn := c2 }, [.daemonCall "virSecretGetXMLDesc"]⟩
    | (some x, c2) =>
      ⟨.ok x, { w with conn := c2 }, [.daemonCall "virSecretGetXMLDesc"]⟩

/-- Embeds `libvirt_secret_set_value` (secret.c lines 114-128). A nil or
absent payload (`value = none`) fails `StringValue` with a local TypeError
before any dispatch; a present payload is transmitted as a buffer with the
explicit byte length `RSTRING_LEN value`. -/
def libvirt_secret_set_value (w : World) (value : Option Bytes) (flags : Nat) :
    Step Unit :=
  match value with
  | none => ⟨.error (.localTypeError "no implicit conversion of nil into String"), w, []⟩
  | some v =>
    match secret_get w with
    | none => ⟨.error (.localArgError "Secret has been freed"), w, []⟩
    | some _ =>
      match virSecretSetValueD w.secret v v.length w.conn flags with
      | (none, c2) =>
        ⟨.error (ruby_libvirt_create_error "virSecretSetValue" c2),
         { w with conn := c2 },
         [.sendBytes v v.length, .daemonCall "virSecretSetValue"]⟩
      | (some sec2, c2) =>
        ⟨.ok (), { w with secret := sec2, conn := c2 },
         [.sendBytes v v.length, .daemonCall "virSecretSetValue"]⟩

/-- Embeds `libvirt_secret_get_value` (secret.c lines 137-162). A null
daemon result raises the RemoteError built from the connection; a non-null
buffer is converted with an explicit size under `rb_protect` and then freed;
when the conversion raised, the buffer is still freed before the exception
is re-raised with `rb_jump_tag`. `strNewRaises` is the environment choice of
whether `ruby_libvirt_str_new_wrap` raises inside `rb_protect`. -/
def libvirt_secret_get_value (w : World) (flags : Nat) (strNewRaises : Bool) :
    Step Bytes :=
  match secret_get w with
  | none => ⟨.error (.localArgError "Secret has been freed"), w, []⟩
  | some _ =>
    match virSecretGetValueD w.secret w.conn flags with
    | (none, c2) =>
      ⟨.error (ruby_libvirt_create_error "virSecretGetValue" c2),
       { w with conn := c2 }, [.daemonCall "virSecretGetValue"]⟩
    | (some buf, c2) =>
      if strNewRaises then
        ⟨.error (.rubyJump 6), { w with conn := c2 },
         [.daemonCall "virSecretGetValue", .strNew buf.length, .freeBuf, .jumpTag]⟩
      else
        ⟨.ok (ruby_libvirt_str_new_wrap buf buf.length), { w with conn := c2 },
         [.daemonCall "virSecretGetValue", .strNew buf.length, .freeBuf]⟩

/-- Embeds `libvirt_secret_undefine` (secret.c lines 171-176). -/
def libvirt_secret_undefine (w : World) : Step Unit :=
  match secret_get w with
  | none => ⟨.error (.localArgError "Secret has been freed"), w, []⟩
  | some _ =>
    match virSecretUndefineD w.secret w.conn with
    | (none, c2) =>
      ⟨.error (ruby_libvirt_create_error "virSecretUndefine" c2),
       { w with conn := c2 }, [.daemonCall "virSecretUndefine"]⟩
    | (some sec2, c2) =>
      ⟨.ok (), { w with secret := sec2, conn := c2 },
       [.daemonCall "virSecretUndefine"]⟩

/-- Embeds `libvirt_secret_free` (secret.c lines 185-188). Modelled from the
spec for the `common.h` `ruby_libvirt_generate_call_free` macro: release is a
local-only, idempotent cleanup — it drops the wrapped pointer, touches no
daemon state, and is a no-op on an already released handle. -/
def libvirt_secret_free (w : World) : Step Unit :=
  if w.handlePtr then ⟨.ok (), { w with handlePtr := false }, []⟩
  else ⟨.ok (), w, []⟩

/-- The operations callable on a `Libvirt::Secret` handle, with their
caller-supplied inputs and, for `getValue`, the environment choice of a
conversion exception. -/
inductive SecretOp
  | getUuid
  | getUsageType
  | getUsageId
  | getXmlDesc (flags : Nat)
  | setValue (value : Option Bytes) (flags : Nat)
  | getValue (flags : Nat) (strNewRaises : Bool)
  | undef
  | release
deriving DecidableEq

/-- Return values erased to one type, so that all operations can be run
uniformly. -/
inductive RVal
  | vstr (s : String)
  | vint (i : Int)
  | vbytes (b : Bytes)
  | vnil
deriving DecidableEq

/-- Erases the typed result of a step. -/
def Step.eraseWith {α : Type} (f : α → RVal) (st : Step α) : Step RVal :=
  ⟨st.result.map f, st.world, st.events⟩

/-- Runs one handle operation on a world. -/
def runOp (op : SecretOp) (w : World) : Step RVal :=
  match op with
  | .getUuid => (libvirt_secret_get_uuid_string w).eraseWith .vstr
  | .getUsageType => (libvirt_secret_get_usage_type w).eraseWith .vint
  | .getUsageId => (libvirt_secret_get_usage_id w).eraseWith .vstr
  | .getXmlDesc flags => (libvirt_secret_get_xml_desc w flags).eraseWith .vstr
  | .setValue v flags => (libvirt_secret_set_value w v flags).eraseWith (fun _ => .vnil)
  | .getValue flags r => (libvirt_secret_get_value w flags r).eraseWith .vbytes
  | .undef => (libvirt_secret_undefine w).eraseWith (fun _ => .vnil)
  | .release => (libvirt_secret_free w).eraseWith (fun _ => .vnil)

/-- Runs a sequence of handle operations, threading the world. -/
def runSeq (ops : List SecretOp) (w : World) : World :=
  match ops with
  | [] => w
  | op :: rest => runSeq rest (runOp op w).world

/-- An operation invocation with a well-formed input: every operation except
a `setValue` called with a nil payload (which the interface contract
excludes and `StringValue` rejects locally). -/
def SecretOp.wf : SecretOp → Bool
  | .setValue none _ => false
  | _ => true

/-- True exactly on a result that is a raised RemoteError. -/
def isRemoteErr {α : Type} : Except CallErr α → Bool
  | .error (.remote _ _ _ _) => true
  | _ => false

/-- True exactly on a failed result of any kind. -/
def isErr {α : Type} : Except CallErr α → Bool
  | .error _ => true
  | _ => false

/-- True when the trace contains a daemon call. -/
def hasDaemonCall : List Event → Bool
  | [] => false
  | .daemonCall _ :: _ => true
  | _ :: rest => hasDaemonCall rest

/-- The availability flags and enumeration values the libvirt headers
provide at build time; the Ceph, ISCSI and None members are
daemon-version-conditional (`HAVE_CONST_...`). -/
structure VirHeaders where
  volumeVal : Int
  hasCeph : Bool
  cephVal : Int
  hasIscsi : Bool
  iscsiVal : Int
  hasNone : Bool
  noneVal : Int
deriving DecidableEq

/-- Embeds the constant-export part of `ruby_libvirt_secret_init`
(secret.c lines 202-216): each usage-type constant is defined as exactly the
value of the corresponding libvirt enumeration member, and a member absent
from the headers is skipped. -/
def ruby_libvirt_secret_init (h : VirHeaders) : List (String × Int) :=
  [("USAGE_TYPE_VOLUME", h.volumeVal)]
    ++ (if h.hasCeph then [("USAGE_TYPE_CEPH", h.cephVal)] else [])
    ++ (if h.hasIscsi then [("USAGE_TYPE_ISCSI", h.iscsiVal)] else [])
    ++ (if h.hasNone then [("USAGE_TYPE_NONE", h.noneVal)] else [])

/-- A concrete connection used for closed instances. -/
def exConn : Connection := ⟨7, ⟨0, ""⟩⟩

/-- A concrete live daemon secret whose value is the zero-length byte
sequence. -/
def exSecretEmpty : SecretObj := ⟨"u-1", 1, "pool/vol1", "<secret/>", true, some []⟩

/-- A concrete live daemon secret whose value was never set. -/
def exSecretUnset : SecretObj := ⟨"u-2", 1, "pool/vol1", "<secret/>", true, none⟩

/-- A concrete world with a live handle onto `exSecretEmpty`. -/
def exWorldEmpty : World := ⟨exSecretEmpty, true, exConn⟩

/-- A concrete world with a live handle onto `exSecretUnset`. -/
def exWorldUnset : World := ⟨exSecretUnset, true, exConn⟩

/-- A concrete world whose handle has been released. -/
def exWorldFreed : World := ⟨exSecretUnset, false, exConn⟩

/-- The 9-byte example payload from the spec, with an embedded zero byte. -/
def exPayload : Bytes := [115, 51, 99, 114, 51, 116, 0, 112, 97]

attribute [simp] Step.eraseWith runOp runSeq secret_get ruby_libvirt_create_error
attribute [simp] ruby_libvirt_str_new_wrap virSecretGetValueD virSecretGetUUIDStringD
attribute [simp] virSecretGetUsageTypeD virSecretGetUsageIDD virSecretGetXMLDescD
attribute [simp] virSecretSetValueD virSecretUndefineD libvirt_secret_get_uuid_string
attribute [simp] libvirt_secret_get_usage_type libvirt_secret_get_usage_id
attribute [simp] libvirt_secret_get_xml_desc libvirt_secret_set_value
attribute [simp] libvirt_secret_get_value libvirt_secret_undefine libvirt_secret_free
attribute [simp] isRemoteErr isErr hasDaemonCall SecretOp.wf Except.map

/-- C1: on a valid (live) handle, `get_value` fails with a RemoteError
exactly when the daemon returns a null value, and a zero-length successful
value from the daemon is returned to the caller as the zero-length byte
sequence, not treated as an error. -/
theorem getValue_remote_error_iff_null (w : World) (flags : Nat) (raises : Bool)
    (h : w.handlePtr = true) :
    (isRemoteErr (libvirt_secret_get_value w flags raises).result = true
      ↔ (virSecretGetValueD w.secret w.conn flags).1 = none) ∧
    ((virSecretGetValueD w.secret w.conn flags).1 = some [] → raises = false →
      (libvirt_secret_get_value w flags raises).result = .ok []) := by
  cases hd : w.secret.defined <;> cases hv : w.secret.value <;> cases raises <;>
    simp [libvirt_secret_get_value, secret_get, virSecretGetValueD,
      ruby_libvirt_create_error, ruby_libvirt_str_new_wrap, isRemoteErr, h, hd, hv]

/-- C1 witness: concrete instance on a live handle whose secret holds the
zero-length value. -/
theorem getValue_remote_error_iff_null_witness :
    (isRemoteErr (libvirt_secret_get_value exWorldEmpty 0 false).result = true
      ↔ (virSecretGetValueD exWorldEmpty.secret exWorldEmpty.conn 0).1 = none) ∧
    ((virSecretGetValueD exWorldEmpty.secret exWorldEmpty.conn 0).1 = some [] →
      false = false →
      (libvirt_secret_get_value exWorldEmpty 0 false).result = .ok []) :=
  getValue_remote_error_iff_null exWorldEmpty 0 false (by decide)

/-- C2: for every byte sequence, including ones with embedded zero bytes and
the zero-length one, a successful `set_value` followed by `get_value` on a
live handle returns exactly that sequence. -/
theorem setValue_getValue_roundtrip (w : World) (v : Bytes) (fl1 fl2 : Nat)
    (h1 : w.handlePtr = true) (h2 : w.secret.defined = true) :
    (libvirt_secret_set_value w (some v) fl1).result = .ok () ∧
    (libvirt_secret_get_value (libvirt_secret_set_value w (some v) fl1).world
        fl2 false).result = .ok v := by
  simp [libvirt_secret_set_value, libvirt_secret_get_value, secret_get,
    virSecretSetValueD, virSecretGetValueD, ruby_libvirt_str_new_wrap,
    h1, h2, List.take_length]

/-- C2 witness: the 9-byte payload with an embedded zero byte round-trips on
a concrete live world. -/
theorem setValue_getValue_roundtrip_witness :
    (libvirt_secret_set_value exWorldUnset (some exPayload) 0).result = .ok () ∧
    (libvirt_secret_get_value
        (libvirt_secret_set_value exWorldUnset (some exPayload) 0).world
        0 false).result = .ok exPayload :=
  setValue_getValue_roundtrip exWorldUnset exPayload 0 0 (by decide) (by decide)

/-- C3: `set_value` with a nil payload is rejected locally by the
input-shape check, before any daemon dispatch and without changing any
state; a present payload is transmitted with its explicit byte length, and
the stored value is exactly the payload, embedded zero bytes included. -/
theorem setValue_null_rejected_explicit_length (w : World) (v : Bytes) (flags : Nat)
    (h1 : w.handlePtr = true) (h2 : w.secret.defined = true) :
    ((libvirt_secret_set_value w none flags).result
        = .error (.localTypeError "no implicit conversion of nil into String") ∧
      (libvirt_secret_set_value w none flags).events = [] ∧
      (libvirt_secret_set_value w none flags).world = w) ∧
    Event.sendBytes v v.length ∈ (libvirt_secret_set_value w (some v) flags).events ∧
    (libvirt_secret_set_value w (some v) flags).world.secret.value = some v := by
  refine ⟨⟨rfl, rfl, rfl⟩, ?_, ?_⟩ <;>
    simp [libvirt_secret_set_value, secret_get, virSecretSetValueD,
      h1, h2, List.take_length]

/-- C3 witness: concrete instance with the embedded-zero payload on a live
world. -/
theorem setValue_null_rejected_explicit_length_witness :
    ((libvirt_secret_set_value exWorldUnset none 0).result
        = .error (.localTypeError "no implicit conversion of nil into String") ∧
      (libvirt_secret_set_value exWorldUnset none 0).events = [] ∧
      (libvirt_secret_set_value exWorldUnset none 0).world = exWorldUnset) ∧
    Event.sendBytes exPayload exPayload.length
      ∈ (libvirt_secret_set_value exWorldUnset (some exPayload) 0).events ∧
    (libvirt_secret_set_value exWorldUnset (some exPayload) 0).world.secret.value
      = some exPayload :=
  setValue_null_rejected_explicit_length exWorldUnset exPayload 0 (by decide) (by decide)


/-- Helper: every operation leaves an undefined daemon secret undefined. -/
theorem runOp_preserves_undefined (op : SecretOp) (w : World)
    (h : w.secret.defined = false) :
    (runOp op w).world.secret.defined = false := by
  cases op
  case setValue v flags => cases v <;> cases hp : w.handlePtr <;> simp_all
  all_goals cases hp : w.handlePtr <;> simp_all

/-- Helper: every operation other than release leaves the wrapped pointer
untouched. -/
theorem runOp_preserves_handlePtr (op : SecretOp) (w : World)
    (h : op ≠ SecretOp.release) :
    (runOp op w).world.handlePtr = w.handlePtr := by
  cases op
  case release => exact absurd rfl h
  case setValue v flags =>
    cases v <;> cases hp : w.handlePtr <;> cases hd : w.secret.defined <;> simp_all
  case getValue flags r =>
    cases hp : w.handlePtr <;> cases hd : w.secret.defined <;>
      cases hv : w.secret.value <;> cases r <;> simp_all
  all_goals cases hp : w.handlePtr <;> cases hd : w.secret.defined <;> simp_all

/-- Helper: running any sequence of non-release operations from a live
handle onto an undefined secret keeps the handle live and the secret
undefined. -/
theorem runSeq_stale_invariant (ops : List SecretOp) (w : World)
    (h1 : w.handlePtr = true) (h2 : w.secret.defined = false)
    (hops : ∀ o ∈ ops, o ≠ SecretOp.release) :
    (runSeq ops w).handlePtr = true ∧ (runSeq ops w).secret.defined = false := by
  induction ops generalizing w with
  | nil => exact ⟨h1, h2⟩
  | cons o rest ih =>
    have ho : o ≠ SecretOp.release := hops o (List.mem_cons_self o rest)
    have hrest : ∀ x ∈ rest, x ≠ SecretOp.release :=
      fun x hm => hops x (List.mem_cons_of_mem _ hm)
    have hp1 : (runOp o w).world.handlePtr = true := by
      rw [runOp_preserves_handlePtr o w ho]; exact h1
    have hd1 : (runOp o w).world.secret.defined = false :=
      runOp_preserves_undefined o w h2
    simpa only [runSeq] using ih (runOp o w).world hp1 hd1 hrest

/-- Helper: on a live handle onto an undefined secret, every well-formed
operation other than release fails with a RemoteError. -/
theorem stale_op_remote_error (op : SecretOp) (w : World)
    (h1 : w.handlePtr = true) (h2 : w.secret.defined = false)
    (hop : op ≠ SecretOp.release) (hwf : op.wf = true) :
    isRemoteErr (runOp op w).result = true := by
  cases op
  case release => exact absurd rfl hop
  case setValue v flags => cases v <;> simp_all
  all_goals simp_all

/-- C4: after a successful undefine on a live handle, every subsequent
well-formed operation other than release — run after any further sequence of
non-release operations on the handle — fails with a RemoteError, and the
secret stays undefined: it never becomes usable again through that handle. -/
theorem undefine_then_all_ops_fail (w : World) (ops : List SecretOp) (op : SecretOp)
    (h1 : w.handlePtr = true)
    (hu : (libvirt_secret_undefine w).result = .ok ())
    (hops : ∀ o ∈ ops, o ≠ SecretOp.release)
    (hop : op ≠ SecretOp.release) (hwf : op.wf = true) :
    isRemoteErr (runOp op (runSeq ops (libvirt_secret_undefine w).world)).result
        = true ∧
    (runOp op (runSeq ops (libvirt_secret_undefine w).world)).world.secret.defined
        = false := by
  have hd2 : (libvirt_secret_undefine w).world.secret.defined = false := by
    cases hd : w.secret.defined <;> simp_all
  have hp2 : (libvirt_secret_undefine w).world.handlePtr = true := by
    cases hd : w.secret.defined <;> simp_all
  obtain ⟨ha, hb⟩ :=
    runSeq_stale_invariant ops (libvirt_secret_undefine w).world hp2 hd2 hops
  exact ⟨stale_op_remote_error op _ ha hb hop hwf,
    runOp_preserves_undefined op _ hb⟩

/-- C4 witness: concrete instance — undefine on a live world, then getUuid
fails with a RemoteError and the secret stays undefined. -/
theorem undefine_then_all_ops_fail_witness :
    isRemoteErr (runOp SecretOp.getUuid
        (runSeq [] (libvirt_secret_undefine exWorldUnset).world)).result = true ∧
    (runOp SecretOp.getUuid
        (runSeq [] (libvirt_secret_undefine exWorldUnset).world)).world.secret.defined
        = false :=
  undefine_then_all_ops_fail exWorldUnset [] SecretOp.getUuid (by decide) rfl
    (by simp) (by decide) (by decide)

/-- C5: release is idempotent, always succeeds (also right after a failed
operation), touches only local client resources (the daemon secret, the
connection and its error detail are untouched, and no daemon call is made),
and every other operation invoked on a released handle fails
deterministically with an error, makes no daemon call, and changes
nothing. -/
theorem release_idempotent_local_safe :
    (∀ w : World, (libvirt_secret_free w).result = .ok ()) ∧
    (∀ w : World, (libvirt_secret_free w).world.secret = w.secret ∧
      (libvirt_secret_free w).world.conn = w.conn ∧
      hasDaemonCall (libvirt_secret_free w).events = false) ∧
    (∀ w : World, (libvirt_secret_free (libvirt_secret_free w).world).world
      = (libvirt_secret_free w).world) ∧
    (∀ (op : SecretOp) (w : World), isErr (runOp op w).result = true →
      (libvirt_secret_free (runOp op w).world).result = .ok ()) ∧
    (∀ (op : SecretOp) (w : World), op ≠ SecretOp.release → w.handlePtr = false →
      isErr (runOp op w).result = true ∧
      hasDaemonCall (runOp op w).events = false ∧
      (runOp op w).world = w) := by
  refine ⟨?_, ?_, ?_, ?_, ?_⟩
  · intro w; cases hp : w.handlePtr <;> simp_all
  · intro w; cases hp : w.handlePtr <;> simp_all
  · intro w; cases hp : w.handlePtr <;> simp_all
  · intro op w _h
    cases hp : (runOp op w).world.handlePtr <;> simp_all
  · intro op w hop hp
    cases op
    case release => exact absurd rfl hop
    case setValue v flags => cases v <;> simp_all
    all_goals simp_all

/-- C5 witness: concrete instance — on a released handle, get_value fails
with an error, makes no daemon call, and changes nothing. -/
theorem release_idempotent_local_safe_witness :
    isErr (runOp (SecretOp.getValue 0 false) exWorldFreed).result = true ∧
    hasDaemonCall (runOp (SecretOp.getValue 0 false) exWorldFreed).events = false ∧
    (runOp (SecretOp.getValue 0 false) exWorldFreed).world = exWorldFreed :=
  release_idempotent_local_safe.2.2.2.2 (SecretOp.getValue 0 false) exWorldFreed
    (by decide) (by decide)

/-- C6: every operation is atomic from the client's point of view — a failed
call leaves the handle state (wrapped pointer) and the daemon-side secret
exactly as they were, so a Live handle remains Live after any failed
call. -/
theorem failed_call_leaves_state_unchanged (op : SecretOp) (w : World)
    (h : isErr (runOp op w).result = true) :
    (runOp op w).world.handlePtr = w.handlePtr ∧
    (runOp op w).world.secret = w.secret := by
  cases op
  case setValue v flags =>
    cases v <;> cases hp : w.handlePtr <;> cases hd : w.secret.defined <;> simp_all
  case getValue flags r =>
    cases hp : w.handlePtr <;> cases hd : w.secret.defined <;>
      cases hv : w.secret.value <;> cases r <;> simp_all
  all_goals
    cases hp : w.handlePtr <;> cases hd : w.secret.defined <;> simp_all

/-- C6 witness: concrete instance — get_value on a live handle whose value
was never set fails, and the handle state and daemon secret are
unchanged. -/
theorem failed_call_leaves_state_unchanged_witness :
    (runOp (SecretOp.getValue 0 false) exWorldUnset).world.handlePtr
      = exWorldUnset.handlePtr ∧
    (runOp (SecretOp.getValue 0 false) exWorldUnset).world.secret
      = exWorldUnset.secret :=
  failed_call_leaves_state_unchanged (SecretOp.getValue 0 false) exWorldUnset
    (by decide)

/-- C7: in get_value on a live handle, whenever the daemon returns a
non-null buffer, that buffer is released exactly once, right after the
caller string is built from it with an explicit size — on the normal path
and on the path where the conversion raises and the exception is re-raised;
when the daemon returns null there is no buffer and no release. -/
theorem getValue_frees_buffer_once (w : World) (flags : Nat) (raises : Bool)
    (h : w.handlePtr = true) :
    (∀ buf : Bytes, (virSecretGetValueD w.secret w.conn flags).1 = some buf →
      (libvirt_secret_get_value w flags raises).events
        = [Event.daemonCall "virSecretGetValue", Event.strNew buf.length,
            Event.freeBuf] ++ (if raises then [Event.jumpTag] else []) ∧
      (libvirt_secret_get_value w flags raises).events.count Event.freeBuf = 1) ∧
    ((virSecretGetValueD w.secret w.conn flags).1 = none →
      (libvirt_secret_get_value w flags raises).events.count Event.freeBuf = 0) := by
  cases hd : w.secret.defined <;> cases hv : w.secret.value <;> cases raises <;>
    simp_all [List.count_cons, List.count_nil]

/-- C7 witness: concrete instance on a live handle holding the zero-length
value, with the conversion raising. -/
theorem getValue_frees_buffer_once_witness :
    (∀ buf : Bytes,
      (virSecretGetValueD exWorldEmpty.secret exWorldEmpty.conn 0).1 = some buf →
      (libvirt_secret_get_value exWorldEmpty 0 true).events
        = [Event.daemonCall "virSecretGetValue", Event.strNew buf.length,
            Event.freeBuf] ++ (if true then [Event.jumpTag] else []) ∧
      (libvirt_secret_get_value exWorldEmpty 0 true).events.count Event.freeBuf
        = 1) ∧
    ((virSecretGetValueD exWorldEmpty.secret exWorldEmpty.conn 0).1 = none →
      (libvirt_secret_get_value exWorldEmpty 0 true).events.count Event.freeBuf
        = 0) :=
  getValue_frees_buffer_once exWorldEmpty 0 true (by decide)

/-- C8 counterexample: on a live handle, set_value with a nil payload fails,
but the failure carries no daemon error context — it is a local TypeError,
not a RemoteError — so it is not the case that every failure carries the
daemon error context. -/
theorem failure_without_daemon_context :
    isErr (libvirt_secret_set_value exWorldEmpty none 0).result = true ∧
    isRemoteErr (libvirt_secret_set_value exWorldEmpty none 0).result = false := by
  decide

/-- C8 (amended): every failure reported as a RemoteError — that is, every
failure arising from a daemon call — carries the daemon error context: its
code and message are the last error detail recorded on the owning
connection, and it names the id of the specific connection that owns the
handle; the local pre-dispatch input-shape and freed-handle checks and the
re-raised conversion exception are the only failures outside this. -/
theorem remote_error_carries_conn_context (op : SecretOp) (w : World)
    (o : String) (c : Nat) (m : String) (cid : Nat)
    (h : (runOp op w).result = .error (.remote o c m cid)) :
    c = (runOp op w).world.conn.lastError.code ∧
    m = (runOp op w).world.conn.lastError.message ∧
    cid = w.conn.id := by
  cases op
  case setValue v flags =>
    cases v <;> cases hp : w.handlePtr <;> cases hd : w.secret.defined <;> simp_all
  case getValue flags r =>
    cases hp : w.handlePtr <;> cases hd : w.secret.defined <;>
      cases hv : w.secret.value <;> cases r <;> simp_all
  all_goals
    cases hp : w.handlePtr <;> cases hd : w.secret.defined <;> simp_all

/-- C8 witness: concrete instance — get_value on a live handle whose value
was never set raises a RemoteError carrying the connection last error detail
and the owning connection id. -/
theorem remote_error_carries_conn_context_witness :
    66 = (runOp (SecretOp.getValue 0 false) exWorldUnset).world.conn.lastError.code ∧
    "secret value is not set"
      = (runOp (SecretOp.getValue 0 false) exWorldUnset).world.conn.lastError.message ∧
    7 = exWorldUnset.conn.id :=
  remote_error_carries_conn_context (SecretOp.getValue 0 false) exWorldUnset
    "virSecretGetValue" 66 "secret value is not set" 7 rfl

/-- C9: every usage-type constant the binding exposes equals the libvirt
enumeration value bit-for-bit where the member exists in the headers, and a
version-conditional member absent from the headers is omitted from the
exported constants while the remaining export still takes place. -/
theorem usage_constants_match_headers (h : VirHeaders) :
    (ruby_libvirt_secret_init h).lookup "USAGE_TYPE_VOLUME" = some h.volumeVal ∧
    (ruby_libvirt_secret_init h).lookup "USAGE_TYPE_CEPH"
      = (if h.hasCeph then some h.cephVal else none) ∧
    (ruby_libvirt_secret_init h).lookup "USAGE_TYPE_ISCSI"
      = (if h.hasIscsi then some h.iscsiVal else none) ∧
    (ruby_libvirt_secret_init h).lookup "USAGE_TYPE_NONE"
      = (if h.hasNone then some h.noneVal else none) := by
  rcases h with ⟨vv, hc, cv, hi, iv, hn, nv⟩
  cases hc <;> cases hi <;> cases hn <;>
    simp [ruby_libvirt_secret_init, List.lookup]

/-- C10: the read-only operations — get_uuid_string, get_usage_type,
get_usage_id, get_xml_desc and get_value — never modify the wrapped handle
pointer nor the daemon-side secret (value or metadata); in particular a live
handle stays live after any of them. -/
theorem getters_preserve_state (w : World) (flags : Nat) (raises : Bool) :
    ((libvirt_secret_get_uuid_string w).world.secret = w.secret ∧
      (libvirt_secret_get_uuid_string w).world.handlePtr = w.handlePtr) ∧
    ((libvirt_secret_get_usage_type w).world.secret = w.secret ∧
      (libvirt_secret_get_usage_type w).world.handlePtr = w.handlePtr) ∧
    ((libvirt_secret_get_usage_id w).world.secret = w.secret ∧
      (libvirt_secret_get_usage_id w).world.handlePtr = w.handlePtr) ∧
    ((libvirt_secret_get_xml_desc w flags).world.secret = w.secret ∧
      (libvirt_secret_get_xml_desc w flags).world.handlePtr = w.handlePtr) ∧
    ((libvirt_secret_get_value w flags raises).world.secret = w.secret ∧
      (libvirt_secret_get_value w flags raises).world.handlePtr = w.handlePtr) := by
  cases hp : w.handlePtr <;> cases hd : w.secret.defined <;>
    cases hv : w.secret.value <;> cases raises <;> simp_all
